import Mathlib

/-!
Verification of the client-side orchestration logic of the AI Log Platform
frontend (`src/frontend/src`): the job-status poll loop of `LogUploader.jsx`,
the streaming query handling of `AskAI.jsx`, and the filter / pagination /
background-refresh coordination of `App.jsx` and `LogTable.jsx`.

Each definition is a shallow embedding of the corresponding JavaScript code;
the theorems settle the frozen behavioural claims about it.
-/

namespace LogPlatform

/-! ## Job tracker (`LogUploader.jsx`)

The poll effect (lines 18-43) runs every 2 seconds while the component is in
the `Processing` state.  Each tick fetches the job record; a `completed`
status sets status/progress/display text, clears the interval and invokes the
`onComplete` callback; a `failed` status sets status and an error display
text and clears the interval; any other status — and any transport error,
which is only logged by the `catch` — leaves the component state untouched.
-/

/-- The job record returned by `getJob` (backend contract): a status string,
an optional `processed_count` and an optional `error` text. -/
structure JobRecord where
  status : String
  processed_count : Option Nat
  error : Option String
  deriving Repr, DecidableEq

/-- The outcome of one poll tick's `getJob` request: either a job record or a
transport failure (the promise rejected). -/
inductive PollResult where
  | ok (j : JobRecord)
  | transportError
  deriving Repr, DecidableEq

/-- JavaScript `x || d` on an optional string: an absent or empty string
falls back to the default. -/
def jsOrStr (o : Option String) (d : String) : String :=
  match o with
  | some s => if s == "" then d else s
  | none => d

/-- The component state of `LogUploader` that the poll effect touches, plus
two instrumentation counters: `onCompleteCount` counts invocations of the
`onComplete` callback (line 28) and `failNotifyCount` counts executions of
the failure branch (lines 30-32).  `intervalActive` records whether the
polling interval is still armed (`clearInterval` sets it to false). -/
structure TrackerState where
  status : String
  progress : Nat
  displayText : String
  intervalActive : Bool
  onCompleteCount : Nat
  failNotifyCount : Nat
  deriving Repr, DecidableEq

/-- The tracker state right after a successful upload (lines 83-85):
status `Processing`, polling armed, no terminal notification yet.  The
progress value reached during upload is a parameter. -/
def initTracker (p : Nat) : TrackerState :=
  { status := "Processing", progress := p, displayText := "Processing...",
    intervalActive := true, onCompleteCount := 0, failNotifyCount := 0 }

/-- One poll tick (the body of the `setInterval` callback, lines 20-37).
A tick only runs while the interval is armed; `completed` and `failed`
clear the interval, every other result leaves the state unchanged. -/
def pollTick (s : TrackerState) (r : PollResult) : TrackerState :=
  if s.intervalActive then
    match r with
    | PollResult.transportError => s
    | PollResult.ok j =>
      if j.status == "completed" then
        { status := "Completed", progress := 100,
          displayText := "Done! " ++ toString (j.processed_count.getD 0) ++ " logs processed.",
          intervalActive := false,
          onCompleteCount := s.onCompleteCount + 1,
          failNotifyCount := s.failNotifyCount }
      else if j.status == "failed" then
        { s with status := "Failed",
                 displayText := "Error: " ++ jsOrStr j.error "Unknown error",
                 intervalActive := false,
                 failNotifyCount := s.failNotifyCount + 1 }
      else s
  else s

/-- Run the poll loop over a sequence of tick outcomes. -/
def runPolls (s : TrackerState) (rs : List PollResult) : TrackerState :=
  rs.foldl pollTick s

/-- Number of `getJob` requests the tracker issues over a sequence of ticks:
one per tick while the interval is armed, none once it is cleared. -/
def requestCount (s : TrackerState) : List PollResult → Nat
  | [] => 0
  | r :: rs => (if s.intervalActive then 1 else 0) + requestCount (pollTick s r) rs

/-- A poll outcome that is not a terminal report: a transport error or a job
record whose status is neither `completed` nor `failed`. -/
def nonTerminal (r : PollResult) : Bool :=
  match r with
  | PollResult.transportError => true
  | PollResult.ok j => !(j.status == "completed") && !(j.status == "failed")

lemma pollTick_nonTerminal (s : TrackerState) (r : PollResult)
    (h : nonTerminal r = true) : pollTick s r = s := by
  cases r with
  | transportError => simp [pollTick]
  | ok j =>
    simp only [nonTerminal, Bool.and_eq_true, Bool.not_eq_true'] at h
    simp [pollTick, h.1, h.2]

lemma runPolls_nonTerminal (s : TrackerState) (rs : List PollResult)
    (h : ∀ r ∈ rs, nonTerminal r = true) : runPolls s rs = s := by
  induction rs with
  | nil => rfl
  | cons r rs ih =>
    simp only [runPolls, List.foldl_cons]
    rw [pollTick_nonTerminal s r (h r (List.mem_cons_self r rs))]
    exact ih fun x hx => h x (List.mem_cons_of_mem r hx)

lemma pollTick_inactive (s : TrackerState) (r : PollResult)
    (h : s.intervalActive = false) : pollTick s r = s := by
  simp [pollTick, h]

lemma pollTick_preserves_inactive (s : TrackerState) (r : PollResult)
    (h : s.intervalActive = false) : (pollTick s r).intervalActive = false := by
  rw [pollTick_inactive s r h]; exact h

lemma runPolls_inactive (s : TrackerState) (rs : List PollResult)
    (h : s.intervalActive = false) : runPolls s rs = s := by
  induction rs with
  | nil => rfl
  | cons r rs ih =>
    simp only [runPolls, List.foldl_cons]
    rw [pollTick_inactive s r h]
    exact ih

lemma requestCount_inactive (s : TrackerState) (rs : List PollResult)
    (h : s.intervalActive = false) : requestCount s rs = 0 := by
  induction rs with
  | nil => rfl
  | cons r rs ih =>
    simp only [requestCount, h, if_false]
    rw [pollTick_inactive s r h]
    simpa using ih

lemma pollTick_completed (s : TrackerState) (n : Nat)
    (h : s.intervalActive = true) :
    pollTick s (PollResult.ok ⟨"completed", some n, none⟩) =
      { status := "Completed", progress := 100,
        displayText := "Done! " ++ toString n ++ " logs processed.",
        intervalActive := false,
        onCompleteCount := s.onCompleteCount + 1,
        failNotifyCount := s.failNotifyCount } := by
  simp [pollTick, h]

lemma pollTick_failed (s : TrackerState) (pc : Option Nat) (e : String)
    (h : s.intervalActive = true) (he : e ≠ "") :
    pollTick s (PollResult.ok ⟨"failed", pc, some e⟩) =
      { s with status := "Failed",
               displayText := "Error: " ++ e,
               intervalActive := false,
               failNotifyCount := s.failNotifyCount + 1 } := by
  simp [pollTick, h, jsOrStr, he]

lemma runPolls_append_single (s : TrackerState) (rs : List PollResult)
    (r : PollResult) :
    runPolls s (rs ++ [r]) = pollTick (runPolls s rs) r := by
  simp [runPolls, List.foldl_append]

/-- C1: every job status sequence that ends in `completed` makes the poll
loop invoke `onComplete` exactly once, set the final processed count in the
displayed message, clear the interval, and issue no further poll requests
after the completed status is observed. -/
theorem tracker_completed_exactly_once
    (s : TrackerState) (pre post : List PollResult) (n : Nat)
    (hact : s.intervalActive = true) (hcnt : s.onCompleteCount = 0)
    (hpre : ∀ r ∈ pre, nonTerminal r = true) :
    (runPolls s (pre ++ PollResult.ok ⟨"completed", some n, none⟩ :: post)).onCompleteCount = 1 ∧
    (runPolls s (pre ++ PollResult.ok ⟨"completed", some n, none⟩ :: post)).displayText =
      "Done! " ++ toString n ++ " logs processed." ∧
    (runPolls s (pre ++ PollResult.ok ⟨"completed", some n, none⟩ :: post)).intervalActive = false ∧
    requestCount (runPolls s (pre ++ [PollResult.ok ⟨"completed", some n, none⟩])) post = 0 := by
  have hpre' : runPolls s pre = s := runPolls_nonTerminal s pre hpre
  have hsplit : runPolls s (pre ++ PollResult.ok ⟨"completed", some n, none⟩ :: post)
      = runPolls (pollTick (runPolls s pre) (PollResult.ok ⟨"completed", some n, none⟩)) post := by
    simp [runPolls, List.foldl_append]
  have hterm := pollTick_completed s n hact
  have habs : runPolls (pollTick s (PollResult.ok ⟨"completed", some n, none⟩)) post
      = pollTick s (PollResult.ok ⟨"completed", some n, none⟩) := by
    apply runPolls_inactive
    rw [hterm]
  refine ⟨?_, ?_, ?_, ?_⟩
  · rw [hsplit, hpre', habs, hterm]; simp [hcnt]
  · rw [hsplit, hpre', habs, hterm]
  · rw [hsplit, hpre', habs, hterm]
  · rw [runPolls_append_single, hpre']
    apply requestCount_inactive
    rw [hterm]

/-- Witness for C1 at the end-to-end scenario of spec §8: job reports
processing (10), processing (42), a transport glitch, then completed (42). -/
theorem tracker_completed_exactly_once_witness :
    (runPolls (initTracker 0)
      ([PollResult.ok ⟨"processing", some 10, none⟩,
        PollResult.ok ⟨"processing", some 42, none⟩,
        PollResult.transportError] ++
       PollResult.ok ⟨"completed", some 42, none⟩ ::
       [PollResult.ok ⟨"completed", some 42, none⟩])).onCompleteCount = 1 ∧
    (runPolls (initTracker 0)
      ([PollResult.ok ⟨"processing", some 10, none⟩,
        PollResult.ok ⟨"processing", some 42, none⟩,
        PollResult.transportError] ++
       PollResult.ok ⟨"completed", some 42, none⟩ ::
       [PollResult.ok ⟨"completed", some 42, none⟩])).displayText =
      "Done! 42 logs processed." ∧
    (runPolls (initTracker 0)
      ([PollResult.ok ⟨"processing", some 10, none⟩,
        PollResult.ok ⟨"processing", some 42, none⟩,
        PollResult.transportError] ++
       PollResult.ok ⟨"completed", some 42, none⟩ ::
       [PollResult.ok ⟨"completed", some 42, none⟩])).intervalActive = false ∧
    requestCount (runPolls (initTracker 0)
      ([PollResult.ok ⟨"processing", some 10, none⟩,
        PollResult.ok ⟨"processing", some 42, none⟩,
        PollResult.transportError] ++
       [PollResult.ok ⟨"completed", some 42, none⟩]))
      [PollResult.ok ⟨"completed", some 42, none⟩] = 0 :=
  tracker_completed_exactly_once (initTracker 0)
    [PollResult.ok ⟨"processing", some 10, none⟩,
     PollResult.ok ⟨"processing", some 42, none⟩,
     PollResult.transportError]
    [PollResult.ok ⟨"completed", some 42, none⟩] 42
    (by decide) (by decide) (by decide)

/-- C5: every job status sequence that ends in `failed` makes the poll loop
run the failure branch exactly once, display the backend's error text, clear
the interval, and ignore any later ticks (terminal state). -/
theorem tracker_failed_exactly_once
    (s : TrackerState) (pre post : List PollResult) (pc : Option Nat) (e : String)
    (hact : s.intervalActive = true) (hcnt : s.failNotifyCount = 0)
    (he : e ≠ "")
    (hpre : ∀ r ∈ pre, nonTerminal r = true) :
    (runPolls s (pre ++ PollResult.ok ⟨"failed", pc, some e⟩ :: post)).failNotifyCount = 1 ∧
    (runPolls s (pre ++ PollResult.ok ⟨"failed", pc, some e⟩ :: post)).displayText =
      "Error: " ++ e ∧
    (runPolls s (pre ++ PollResult.ok ⟨"failed", pc, some e⟩ :: post)).intervalActive = false ∧
    requestCount (runPolls s (pre ++ [PollResult.ok ⟨"failed", pc, some e⟩])) post = 0 := by
  have hpre' : runPolls s pre = s := runPolls_nonTerminal s pre hpre
  have hsplit : runPolls s (pre ++ PollResult.ok ⟨"failed", pc, some e⟩ :: post)
      = runPolls (pollTick (runPolls s pre) (PollResult.ok ⟨"failed", pc, some e⟩)) post := by
    simp [runPolls, List.foldl_append]
  have hterm := pollTick_failed s pc e hact he
  have habs : runPolls (pollTick s (PollResult.ok ⟨"failed", pc, some e⟩)) post
      = pollTick s (PollResult.ok ⟨"failed", pc, some e⟩) := by
    apply runPolls_inactive
    rw [hterm]
  refine ⟨?_, ?_, ?_, ?_⟩
  · rw [hsplit, hpre', habs, hterm]; simp [hcnt]
  · rw [hsplit, hpre', habs, hterm]
  · rw [hsplit, hpre', habs, hterm]
  · rw [runPolls_append_single, hpre']
    apply requestCount_inactive
    rw [hterm]

/-- Witness for C5: one processing tick, then `failed` with error text
`Disk full`, then one late tick. -/
theorem tracker_failed_exactly_once_witness :
    (runPolls (initTracker 0)
      ([PollResult.ok ⟨"processing", some 7, none⟩] ++
       PollResult.ok ⟨"failed", none, some "Disk full"⟩ ::
       [PollResult.transportError])).failNotifyCount = 1 ∧
    (runPolls (initTracker 0)
      ([PollResult.ok ⟨"processing", some 7, none⟩] ++
       PollResult.ok ⟨"failed", none, some "Disk full"⟩ ::
       [PollResult.transportError])).displayText = "Error: " ++ "Disk full" ∧
    (runPolls (initTracker 0)
      ([PollResult.ok ⟨"processing", some 7, none⟩] ++
       PollResult.ok ⟨"failed", none, some "Disk full"⟩ ::
       [PollResult.transportError])).intervalActive = false ∧
    requestCount (runPolls (initTracker 0)
      ([PollResult.ok ⟨"processing", some 7, none⟩] ++
       [PollResult.ok ⟨"failed", none, some "Disk full"⟩]))
      [PollResult.transportError] = 0 :=
  tracker_failed_exactly_once (initTracker 0)
    [PollResult.ok ⟨"processing", some 7, none⟩]
    [PollResult.transportError] none "Disk full"
    (by decide) (by decide) (by decide) (by decide)

/-- C6: a transport error on a poll tick leaves the tracker state entirely
unchanged (the `catch` only logs), and any number of consecutive transport
errors still leaves it unchanged — polling continues with no backoff and no
retry cap. -/
theorem tracker_transport_error_keeps_state (s : TrackerState) (n : Nat) :
    pollTick s PollResult.transportError = s ∧
    runPolls s (List.replicate n PollResult.transportError) = s := by
  have h1 : pollTick s PollResult.transportError = s := by
    by_cases h : s.intervalActive <;> simp [pollTick, h]
  refine ⟨h1, ?_⟩
  induction n with
  | zero => rfl
  | succ k ih =>
    simp only [List.replicate_succ, runPolls, List.foldl_cons, h1]
    exact ih

/-! ### Interval handle identity (supersession)

`intervalRef` holds the handle of the currently armed interval.  When the
effect re-runs (new `status`/`jobId` after a new upload), React first runs
the previous effect's cleanup — `clearInterval(intervalRef.current)`
(lines 40-42) — and only then the new effect body, which arms a fresh
interval (line 20).  JavaScript is single-threaded, so no tick can run
between the cleanup and the re-arm: `restartPoll` is one atomic step.
A scheduled tick belonging to interval `i` fires only if `i` is still the
armed handle. -/

/-- The uploader environment: the component state together with the identity
of the armed interval (`none` when cleared) and a fresh-handle counter. -/
structure PollEnv where
  tracker : TrackerState
  activeId : Option Nat
  nextId : Nat
  deriving Repr, DecidableEq

/-- Arm a fresh polling interval (the `setInterval` call, line 20). -/
def armPoll (e : PollEnv) : PollEnv :=
  { e with activeId := some e.nextId, nextId := e.nextId + 1 }

/-- The effect cleanup: `clearInterval(intervalRef.current)` (lines 40-42). -/
def cleanupPoll (e : PollEnv) : PollEnv :=
  { e with activeId := none }

/-- Effect re-run on supersession: cleanup of the retired interval, then
arming of the new one, with no tick in between. -/
def restartPoll (e : PollEnv) : PollEnv :=
  armPoll (cleanupPoll e)

/-- A tick scheduled for interval `i` fires only while `i` is the armed
handle; a tick of a cleared interval never runs its callback. -/
def tickFrom (i : Nat) (e : PollEnv) (r : PollResult) : PollEnv :=
  if e.activeId = some i then { e with tracker := pollTick e.tracker r } else e

/-- Handles are allocated in increasing order, so an armed handle is always
below the fresh counter. -/
lemma armPoll_handle_lt (e : PollEnv) :
    ∀ j, (armPoll e).activeId = some j → j < (armPoll e).nextId := by
  intro j hj
  simp only [armPoll, Option.some.injEq] at hj
  simp [armPoll, ← hj]

/-- C7: starting a new poll loop while interval `i` is armed retires `i`
before any further tick can fire: after the restart the armed handle differs
from `i`, and a tick scheduled for `i` changes nothing — no callback of the
retired job interleaves with the new job's callbacks. -/
theorem tracker_supersession_no_interleave
    (e : PollEnv) (i : Nat)
    (_hi : e.activeId = some i) (hlt : i < e.nextId) :
    (restartPoll e).activeId ≠ some i ∧
    ∀ r, tickFrom i (restartPoll e) r = restartPoll e := by
  have hne : (restartPoll e).activeId ≠ some i := by
    intro hc
    have h2 : (restartPoll e).activeId = some e.nextId := rfl
    rw [h2] at hc
    have h3 : e.nextId = i := Option.some.inj hc
    omega
  refine ⟨hne, fun r => ?_⟩
  simp [tickFrom, hne]

/-- Witness for C7: an environment with interval 0 armed is restarted; the
retired interval's tick is a no-op. -/
theorem tracker_supersession_no_interleave_witness :
    (restartPoll (armPoll ⟨initTracker 0, none, 0⟩)).activeId ≠ some 0 ∧
    tickFrom 0 (restartPoll (armPoll ⟨initTracker 0, none, 0⟩))
      (PollResult.ok ⟨"completed", some 5, none⟩) =
      restartPoll (armPoll ⟨initTracker 0, none, 0⟩) :=
  ⟨(tracker_supersession_no_interleave (armPoll ⟨initTracker 0, none, 0⟩) 0
      (by decide) (by decide)).1,
   (tracker_supersession_no_interleave (armPoll ⟨initTracker 0, none, 0⟩) 0
      (by decide) (by decide)).2 (PollResult.ok ⟨"completed", some 5, none⟩)⟩

/-! ## Streaming query (`AskAI.jsx`)

`handleAsk` (lines 14-43) wires two callbacks into the streaming transport
`askAI`: the token callback pushes each token onto `tokenBuffer` and sets the
response to the buffer's concatenation; the final callback stops the
streaming flag and sets the response from the terminal value.  The transport
itself lives in `src/frontend/src/api/client.js`, which is not part of the
given sources, so its terminal-payload handling is modelled from the spec
below (`clientDeliver`). -/

/-- A JSON value as produced by `JSON.parse`: null, boolean, number, string,
array or object (fields in textual order).  Numbers are kept as exact
rationals — the embedded code never computes with them. -/
inductive Json where
  | jnull
  | jbool (b : Bool)
  | jnum (q : ℚ)
  | jstr (s : String)
  | jarr (elems : List Json)
  | jobj (fields : List (String × Json))

/-- Skip JSON whitespace. -/
def skipWs : List Char → List Char
  | [] => []
  | c :: cs => if c = ' ' ∨ c = '\t' ∨ c = '\n' ∨ c = '\r' then skipWs cs else c :: cs

/-- Value of a hex digit. -/
def hexVal (c : Char) : Option Nat :=
  if '0' ≤ c ∧ c ≤ '9' then some (c.toNat - 48)
  else if 'a' ≤ c ∧ c ≤ 'f' then some (c.toNat - 87)
  else if 'A' ≤ c ∧ c ≤ 'F' then some (c.toNat - 55)
  else none

/-- A single-character JSON string escape. -/
def escChar (e : Char) : Option Char :=
  if e = '\"' then some '\"'
  else if e = '\\' then some '\\'
  else if e = '/' then some '/'
  else if e = 'n' then some '\n'
  else if e = 't' then some '\t'
  else if e = 'r' then some '\r'
  else if e = 'b' then some (Char.ofNat 8)
  else if e = 'f' then some (Char.ofNat 12)
  else none

/-- Read the body of a JSON string after its opening quote, returning the
decoded string and the input that follows the closing quote. -/
def strBody : List Char → Option (String × List Char)
  | [] => none
  | c :: cs =>
    if c = '\"' then some ("", cs)
    else if c = '\\' then
      match cs with
      | [] => none
      | e :: cs2 =>
        if e = 'u' then
          match cs2 with
          | h1 :: h2 :: h3 :: h4 :: cs3 =>
            match hexVal h1, hexVal h2, hexVal h3, hexVal h4 with
            | some a, some b, some cc, some d =>
              match strBody cs3 with
              | some (s, rest) => some (String.mk (Char.ofNat (((a * 16 + b) * 16 + cc) * 16 + d) :: s.data), rest)
              | none => none
            | _, _, _, _ => none
          | _ => none
        else
          match escChar e with
          | some ch =>
            match strBody cs2 with
            | some (s, rest) => some (String.mk (ch :: s.data), rest)
            | none => none
          | none => none
    else
      match strBody cs with
      | some (s, rest) => some (String.mk (c :: s.data), rest)
      | none => none

/-- Decimal digits to a natural number. -/
def digitsToNat (ds : List Char) : Nat :=
  ds.foldl (fun n c => n * 10 + (c.toNat - 48)) 0

/-- Finish a JSON number: apply the sign and an optional exponent to the
mantissa. -/
def numTail (m : ℚ) (neg : Bool) (cs : List Char) : Option (Json × List Char) :=
  let v : ℚ := if neg then -m else m
  match cs with
  | [] => some (Json.jnum v, [])
  | c :: rest =>
    if c = 'e' ∨ c = 'E' then
      let sr := match rest with
        | '+' :: r => (false, r)
        | '-' :: r => (true, r)
        | _ => (false, rest)
      let ed := sr.2.span Char.isDigit
      if ed.1.isEmpty then none
      else
        let e := digitsToNat ed.1
        some (Json.jnum (if sr.1 then v / ((10 : ℚ) ^ e) else v * ((10 : ℚ) ^ e)), ed.2)
    else some (Json.jnum v, c :: rest)

/-- Read a JSON number. -/
def numLit (cs : List Char) : Option (Json × List Char) :=
  let np := match cs with
    | '-' :: r => (true, r)
    | _ => (false, cs)
  let ip := np.2.span Char.isDigit
  if ip.1.isEmpty then none
  else
    match ip.2 with
    | '.' :: r =>
      let fp := r.span Char.isDigit
      if fp.1.isEmpty then none
      else numTail ((digitsToNat ip.1 : ℚ) + (digitsToNat fp.1 : ℚ) / ((10 : ℚ) ^ fp.1.length)) np.1 fp.2
    | _ => numTail (digitsToNat ip.1 : ℚ) np.1 ip.2

mutual

/-- Read one JSON value (fuel-bounded recursive descent). -/
def parseVal : Nat → List Char → Option (Json × List Char)
  | 0, _ => none
  | f + 1, cs =>
    match skipWs cs with
    | [] => none
    | c :: rest =>
      if c = '\x7b' then
        match skipWs rest with
        | '\x7d' :: rest2 => some (Json.jobj [], rest2)
        | rest2 => parseFields f rest2 []
      else if c = '[' then
        match skipWs rest with
        | ']' :: rest2 => some (Json.jarr [], rest2)
        | rest2 => parseElems f rest2 []
      else if c = '\"' then
        match strBody rest with
        | some (s, rest2) => some (Json.jstr s, rest2)
        | none => none
      else if c = 't' then
        match rest with
        | 'r' :: 'u' :: 'e' :: r2 => some (Json.jbool true, r2)
        | _ => none
      else if c = 'f' then
        match rest with
        | 'a' :: 'l' :: 's' :: 'e' :: r2 => some (Json.jbool false, r2)
        | _ => none
      else if c = 'n' then
        match rest with
        | 'u' :: 'l' :: 'l' :: r2 => some (Json.jnull, r2)
        | _ => none
      else if c = '-' ∨ c.isDigit then numLit (c :: rest)
      else none

/-- Read the remaining elements of a non-empty JSON array. -/
def parseElems : Nat → List Char → List Json → Option (Json × List Char)
  | 0, _, _ => none
  | f + 1, cs, acc =>
    match parseVal f cs with
    | none => none
    | some (v, rest) =>
      match skipWs rest with
      | ',' :: r2 => parseElems f r2 (acc ++ [v])
      | ']' :: r2 => some (Json.jarr (acc ++ [v]), r2)
      | _ => none

/-- Read the remaining fields of a non-empty JSON object. -/
def parseFields : Nat → List Char → List (String × Json) → Option (Json × List Char)
  | 0, _, _ => none
  | f + 1, cs, acc =>
    match skipWs cs with
    | '\"' :: rest =>
      match strBody rest with
      | none => none
      | some (k, r2) =>
        match skipWs r2 with
        | ':' :: r3 =>
          match parseVal f r3 with
          | none => none
          | some (v, r4) =>
            match skipWs r4 with
            | ',' :: r5 => parseFields f r5 (acc ++ [(k, v)])
            | '\x7d' :: r5 => some (Json.jobj (acc ++ [(k, v)]), r5)
            | _ => none
        | _ => none
    | _ => none

end

/-- Modelled from the spec: `JSON.parse` as used by the streaming transport
(`src/frontend/src/api/client.js`, not among the given sources) and by the
final-result handling of §4.2 — a terminal payload is parseable exactly when
it is a complete JSON document. -/
def jsonParse (s : String) : Option Json :=
  match parseVal (s.length + 1) s.data with
  | some (v, rest) => if (skipWs rest).isEmpty then some v else none
  | none => none

/-- Escape one character for JSON string output. -/
def escSeq (c : Char) : List Char :=
  if c = '\"' then ['\\', '\"']
  else if c = '\\' then ['\\', '\\']
  else if c = '\n' then ['\\', 'n']
  else if c = '\t' then ['\\', 't']
  else if c = '\r' then ['\\', 'r']
  else [c]

/-- Escape a string for JSON output. -/
def escapeJs (s : String) : String :=
  String.mk (s.data.foldr (fun c acc => escSeq c ++ acc) [])

/-- Render a JSON number the way JavaScript renders integers; non-integral
rationals keep their rational rendering (the embedded code never prints
them). -/
def numToString (q : ℚ) : String :=
  if q.den = 1 then toString q.num else toString q

/-- A run of spaces. -/
def spaces (n : Nat) : String :=
  String.mk (List.replicate n ' ')

/-- `JSON.stringify(v, null, 2)`: pretty-printed JSON with two-space
indentation, as called on line 36 of `AskAI.jsx`. -/
def stringify2 (ind : Nat) : Json → String
  | Json.jnull => "null"
  | Json.jbool b => if b then "true" else "false"
  | Json.jnum q => numToString q
  | Json.jstr s => "\"" ++ escapeJs s ++ "\""
  | Json.jarr vs =>
    if vs.isEmpty then "[]"
    else
      "[\n" ++
      String.intercalate ",\n"
        (vs.attach.map (fun x => spaces (ind + 2) ++ stringify2 (ind + 2) x.1)) ++
      "\n" ++ spaces ind ++ "]"
  | Json.jobj fs =>
    if fs.isEmpty then "\x7b\x7d"
    else
      "\x7b\n" ++
      String.intercalate ",\n"
        (fs.attach.map (fun x =>
          spaces (ind + 2) ++ "\"" ++ escapeJs x.1.1 ++ "\": " ++ stringify2 (ind + 2) x.1.2)) ++
      "\n" ++ spaces ind ++ "\x7d"
termination_by v => sizeOf v
decreasing_by
  · simp_wf
    have h := List.sizeOf_lt_of_mem x.2
    omega
  · simp_wf
    obtain ⟨⟨a, b⟩, hx⟩ := x
    have h := List.sizeOf_lt_of_mem hx
    simp only [Prod.mk.sizeOf_spec] at h
    simp only []
    omega

/-- JavaScript truthiness of a JSON-parsed value. -/
def jsTruthy : Json → Bool
  | Json.jnull => false
  | Json.jbool b => b
  | Json.jnum q => !(q == 0)
  | Json.jstr s => !(s == "")
  | Json.jarr _ => true
  | Json.jobj _ => true

/-- Property access `v.k` on a JSON-parsed value: a field of an object
(later duplicate keys override earlier ones, as in `JSON.parse`), absent on
everything else. -/
def jsonField (v : Json) (k : String) : Option Json :=
  match v with
  | Json.jobj fs => fs.foldl (fun acc p => if p.1 == k then some p.2 else acc) none
  | _ => none

/-- JavaScript string coercion of a primitive JSON value, as used by the
template literal on line 32 of `AskAI.jsx`; composite values use the
object placeholder (the embedded payloads never reach this case). -/
def jsToString : Json → String
  | Json.jnull => "null"
  | Json.jbool b => if b then "true" else "false"
  | Json.jnum q => numToString q
  | Json.jstr s => s
  | Json.jarr _ => "[object Array]"
  | Json.jobj _ => "[object Object]"

/-- `typeof result === 'object'` for a JSON-parsed value: objects, arrays
and `null`. -/
def typeofObject : Json → Bool
  | Json.jobj _ => true
  | Json.jarr _ => true
  | Json.jnull => true
  | _ => false

/-- Whether `result.error` is truthy (line 31 of `AskAI.jsx`). -/
def hasTruthyError (v : Json) : Bool :=
  match jsonField v "error" with
  | some ev => jsTruthy ev
  | none => false

/-- The value the final callback receives from the transport: either a
JSON-parsed value or the raw payload text. -/
inductive AskFinal where
  | parsed (v : Json)
  | raw (s : String)

/-- Modelled from the spec: the terminal-event handling of the streaming
transport `askAI` (`src/frontend/src/api/client.js` is not among the given
sources).  Per §4.2 the client attempts to interpret the terminal payload as
structured data: on success the final callback receives the parsed value,
otherwise it receives the raw text unchanged. -/
def clientDeliver (payload : String) : AskFinal :=
  match jsonParse payload with
  | some v => AskFinal.parsed v
  | none => AskFinal.raw payload

/-- The final callback of `handleAsk` (lines 29-41): an object with a truthy
`error` field displays an error message; otherwise an object value is
pretty-printed and any other value is displayed as-is. -/
def finalResponse : AskFinal → String
  | AskFinal.raw s => s
  | AskFinal.parsed v =>
    if hasTruthyError v then "Error: " ++ jsToString ((jsonField v "error").getD Json.jnull)
    else if typeofObject v then stringify2 0 v
    else jsToString v

/-- The `AskAI` component state that `handleAsk`/`handleClear` touch,
together with the per-invocation `tokenBuffer` and an instrumentation list
`emitted` recording every partial-result `setResponse` made by the token
callback (line 27). -/
structure AskState where
  query : String
  response : String
  isStreaming : Bool
  buffer : List String
  emitted : List String
  deriving Repr, DecidableEq

/-- Entry into `handleAsk` (lines 17-20): streaming on, response cleared,
fresh `tokenBuffer`. -/
def startAsk (s : AskState) : AskState :=
  { s with isStreaming := true, response := "", buffer := [] }

/-- The token callback (lines 25-28): push the token, display the buffer's
concatenation.  The source installs no guard — the callback runs whenever a
token arrives, streaming flag or not. -/
def onToken (s : AskState) (t : String) : AskState :=
  { s with buffer := s.buffer ++ [t],
           response := String.join (s.buffer ++ [t]),
           emitted := s.emitted ++ [String.join (s.buffer ++ [t])] }

/-- The final callback (lines 29-41). -/
def onFinal (s : AskState) (f : AskFinal) : AskState :=
  { s with isStreaming := false, response := finalResponse f }

/-- `handleClear` (lines 45-48): reset query and response text.  Nothing
else — no abort of the transport, no terminal marking. -/
def clearAsk (s : AskState) : AskState :=
  { s with query := "", response := "" }

/-- An observable event during one `AskAI` interaction: a token arrival, the
terminal payload, or the user pressing Clear. -/
inductive AskEvent where
  | token (t : String)
  | final (payload : String)
  | clear

/-- Process one event against the component state. -/
def askStep (s : AskState) (e : AskEvent) : AskState :=
  match e with
  | AskEvent.token t => onToken s t
  | AskEvent.final p => onFinal s (clientDeliver p)
  | AskEvent.clear => clearAsk s

/-- Process a sequence of events. -/
def runAsk (s : AskState) (es : List AskEvent) : AskState :=
  es.foldl askStep s

/-- Component state right after `handleAsk` starts streaming a query. -/
def initAsk (q : String) : AskState :=
  startAsk { query := q, response := "", isStreaming := false, buffer := [], emitted := [] }

/-- The notifications the token callback produces from buffer `b` over the
incoming tokens: one concatenation per token. -/
def joinsFrom (b : List String) : List String → List String
  | [] => []
  | t :: ts => String.join (b ++ [t]) :: joinsFrom (b ++ [t]) ts

lemma runAsk_tokens_buffer (ts : List String) :
    ∀ s : AskState, (runAsk s (List.map AskEvent.token ts)).buffer = s.buffer ++ ts := by
  induction ts with
  | nil => intro s; simp [runAsk]
  | cons t ts ih =>
    intro s
    simp only [List.map_cons, runAsk, List.foldl_cons]
    rw [show askStep s (AskEvent.token t) = onToken s t from rfl]
    have := ih (onToken s t)
    simp only [runAsk] at this
    rw [this]
    simp [onToken]

lemma runAsk_tokens_emitted (ts : List String) :
    ∀ s : AskState,
      (runAsk s (List.map AskEvent.token ts)).emitted = s.emitted ++ joinsFrom s.buffer ts := by
  induction ts with
  | nil => intro s; simp [runAsk, joinsFrom]
  | cons t ts ih =>
    intro s
    simp only [List.map_cons, runAsk, List.foldl_cons]
    rw [show askStep s (AskEvent.token t) = onToken s t from rfl]
    have := ih (onToken s t)
    simp only [runAsk] at this
    rw [this]
    simp [onToken, joinsFrom]

lemma runAsk_tokens_response (ts : List String) :
    ∀ (s : AskState) (t : String),
      (runAsk s (List.map AskEvent.token (t :: ts))).response =
        String.join (s.buffer ++ t :: ts) := by
  induction ts with
  | nil => intro s t; simp [runAsk, askStep, onToken]
  | cons u ts ih =>
    intro s t
    simp only [List.map_cons, runAsk, List.foldl_cons]
    rw [show askStep s (AskEvent.token t) = onToken s t from rfl]
    have := ih (onToken s t) u
    simp only [runAsk, List.map_cons, List.foldl_cons] at this
    rw [this]
    simp [onToken]

lemma joinsFrom_length (ts : List String) :
    ∀ b : List String, (joinsFrom b ts).length = ts.length := by
  induction ts with
  | nil => intro b; rfl
  | cons t ts ih => intro b; simp [joinsFrom, ih]

lemma joinsFrom_getD (ts : List String) :
    ∀ (b : List String) (i : Nat), i < ts.length →
      (joinsFrom b ts).getD i "" = String.join (b ++ ts.take (i + 1)) := by
  induction ts with
  | nil => intro b i h; simp at h
  | cons t ts ih =>
    intro b i h
    cases i with
    | zero => simp [joinsFrom]
    | succ j =>
      have hj : j < ts.length := by simpa using h
      simp only [joinsFrom, List.getD_cons_succ, List.take_succ_cons]
      rw [ih (b ++ [t]) j hj]
      simp

/-- C2: while a query streams, every token is appended to the buffer in
receipt order, each token triggers exactly one partial-result notification
(one `setResponse` per chunk), the i-th notification is the concatenation of
the first i+1 tokens, and for the token stream
`["Analy", "zing ", "payment-svc"]` the displayed partial text before the
final event is `"Analyzing payment-svc"`. -/
theorem askai_token_accumulation (q : String) (ts : List String) :
    (runAsk (initAsk q) (List.map AskEvent.token ts)).buffer = ts ∧
    (runAsk (initAsk q) (List.map AskEvent.token ts)).emitted.length = ts.length ∧
    (∀ i, i < ts.length →
      (runAsk (initAsk q) (List.map AskEvent.token ts)).emitted.getD i "" =
        String.join (ts.take (i + 1))) ∧
    (runAsk (initAsk "why is payment-svc failing")
      (List.map AskEvent.token ["Analy", "zing ", "payment-svc"])).response =
      "Analyzing payment-svc" := by
  refine ⟨?_, ?_, ?_, ?_⟩
  · have := runAsk_tokens_buffer ts (initAsk q)
    simpa [initAsk, startAsk] using this
  · have := runAsk_tokens_emitted ts (initAsk q)
    rw [this]
    simp [initAsk, startAsk, joinsFrom_length]
  · intro i hi
    have := runAsk_tokens_emitted ts (initAsk q)
    rw [this]
    simp only [initAsk, startAsk]
    have h2 := joinsFrom_getD ts [] i hi
    simpa using h2
  · have := runAsk_tokens_response ["zing ", "payment-svc"]
      (initAsk "why is payment-svc failing") "Analy"
    rw [this]
    decide

/-- Witness for C2: on the three-token spec stream, the third notification
is `"Analyzing payment-svc"`. -/
theorem askai_token_accumulation_witness :
    2 < (["Analy", "zing ", "payment-svc"] : List String).length ∧
    (runAsk (initAsk "why is payment-svc failing")
      (List.map AskEvent.token ["Analy", "zing ", "payment-svc"])).emitted.getD 2 "" =
      String.join (["Analy", "zing ", "payment-svc"].take 3) :=
  ⟨by decide,
   (askai_token_accumulation "why is payment-svc failing"
      ["Analy", "zing ", "payment-svc"]).2.2.1 2 (by decide)⟩

lemma runAsk_append_single (s : AskState) (es : List AskEvent) (e : AskEvent) :
    runAsk s (es ++ [e]) = askStep (runAsk s es) e := by
  simp [runAsk, List.foldl_append]

/-- C3: a `FinalResult` ends the stream.  If the terminal payload parses as
a structured (object-typed) value without a truthy `error` field, the
pretty-printed structured form is displayed; if it does not parse as JSON,
the displayed fallback is the raw payload text — which equals the
accumulated token text whenever the terminal payload carries it — and the
non-JSON payload `"plain summary"` yields exactly that text, not an error
message. -/
theorem askai_final_fallback (q p : String) (ts : List String) :
    ((jsonParse p).isSome = true →
      hasTruthyError ((jsonParse p).getD Json.jnull) = false →
      typeofObject ((jsonParse p).getD Json.jnull) = true →
      (runAsk (initAsk q) (List.map AskEvent.token ts ++ [AskEvent.final p])).response =
        stringify2 0 ((jsonParse p).getD Json.jnull)) ∧
    ((jsonParse p).isSome = false →
      (runAsk (initAsk q) (List.map AskEvent.token ts ++ [AskEvent.final p])).response = p) ∧
    ((jsonParse p).isSome = false → p = String.join ts →
      (runAsk (initAsk q) (List.map AskEvent.token ts ++ [AskEvent.final p])).response =
        String.join ts) ∧
    (runAsk (initAsk "q") (List.map AskEvent.token ["plain ", "summary"] ++
        [AskEvent.final "plain summary"])).response = "plain summary" ∧
    (runAsk (initAsk "q") (List.map AskEvent.token ["plain ", "summary"] ++
        [AskEvent.final "plain summary"])).response.take 7 ≠ "Error: " := by
  have hstep : ∀ (q : String) (ts : List String) (p : String),
      (runAsk (initAsk q) (List.map AskEvent.token ts ++ [AskEvent.final p])).response =
        finalResponse (clientDeliver p) := by
    intro q ts p
    rw [runAsk_append_single]
    rfl
  have h2 : ∀ (q : String) (ts : List String) (p : String), (jsonParse p).isSome = false →
      (runAsk (initAsk q) (List.map AskEvent.token ts ++ [AskEvent.final p])).response = p := by
    intro q ts p hnone
    rw [hstep]
    cases hv : jsonParse p with
    | some v => rw [hv] at hnone; simp at hnone
    | none => simp [clientDeliver, hv, finalResponse]
  have hps : (jsonParse "plain summary").isSome = false := by decide
  refine ⟨?_, h2 q ts p, ?_, ?_, ?_⟩
  · intro hsome herr hobj
    rw [hstep]
    cases hv : jsonParse p with
    | none => rw [hv] at hsome; simp at hsome
    | some v =>
      rw [hv] at herr hobj
      simp only [Option.getD_some] at herr hobj ⊢
      simp [clientDeliver, hv, finalResponse, herr, hobj]
  · intro hnone hacc
    rw [h2 q ts p hnone]
    exact hacc
  · exact h2 "q" ["plain ", "summary"] "plain summary" hps
  · rw [h2 "q" ["plain ", "summary"] "plain summary" hps]
    decide

/-- Witness for C3: the spec payload parses and the structured form is
emitted; the conjunction also evaluates the parse on the non-JSON payload. -/
theorem askai_final_fallback_witness :
    (runAsk (initAsk "why")
      (List.map AskEvent.token ["Analy", "zing ", "payment-svc"] ++
       [AskEvent.final "\x7b\"cause\":\"DB timeout\",\"confidence\":\"HIGH\"\x7d"])).response =
      stringify2 0
        ((jsonParse "\x7b\"cause\":\"DB timeout\",\"confidence\":\"HIGH\"\x7d").getD Json.jnull) ∧
    (runAsk (initAsk "why")
      (List.map AskEvent.token ["plain ", "summary"] ++
       [AskEvent.final "plain summary"])).response = "plain summary" :=
  ⟨(askai_final_fallback "why"
      "\x7b\"cause\":\"DB timeout\",\"confidence\":\"HIGH\"\x7d"
      ["Analy", "zing ", "payment-svc"]).1 (by decide) (by decide) (by decide),
   (askai_final_fallback "why" "plain summary" ["plain ", "summary"]).2.1 (by decide)⟩

/-- C8 counterexample: the claim says an event arriving after a
cancellation (`handleClear` during streaming) never changes the delivered
output; in the code a token arriving right after a clear does change it. -/
theorem askai_cancel_counterexample :
    (askStep (runAsk (initAsk "q") [AskEvent.token "A", AskEvent.clear])
        (AskEvent.token "B")).response ≠
      (runAsk (initAsk "q") [AskEvent.token "A", AskEvent.clear]).response := by
  decide

/-- C8 amended: `handleClear` resets the query and response text but does
not cancel the stream or mark it terminal: a token event arriving after a
clear — or after the final result — still updates the delivered output with
the full accumulated buffer. -/
theorem askai_clear_does_not_suppress (s : AskState) (t : String) (f : AskFinal) :
    (clearAsk s).response = "" ∧
    (clearAsk s).query = "" ∧
    (askStep (clearAsk s) (AskEvent.token t)).response = String.join (s.buffer ++ [t]) ∧
    (askStep (clearAsk s) (AskEvent.token t)).buffer = s.buffer ++ [t] ∧
    (askStep (onFinal s f) (AskEvent.token t)).response = String.join (s.buffer ++ [t]) := by
  refine ⟨rfl, rfl, ?_, ?_, ?_⟩ <;> simp [askStep, onToken, clearAsk, onFinal]

/-! ## Filter / pagination / background refresh (`App.jsx`, `LogTable.jsx`)

`App` owns `analytics`, `logs`, `total`, `page`, `pages`, `filters` and
`health`.  `LogTable` owns the full filter record and reports each change,
merged, to `App.handleFilterChange`, which stores it and calls
`fetchLogs(1, newFilters)`.  `fetchLogs` issues one `getLogs` request with
`page` spread together with every filter field, and applies the response —
or, in its `catch`, changes nothing.  A mount-time effect with an empty
dependency array arms one 30-second analytics/health refresh interval and
clears it on unmount. -/

/-- The filter record held by `LogTable` (lines 14-19); the anomaly
threshold is an exact rational (the code only stores and forwards it). -/
structure TableFilters where
  service : String
  level : String
  anomaly_threshold : ℚ
  search : String
  deriving Repr, DecidableEq

/-- `LogTable`'s initial filter state: empty strings and threshold 0.5. -/
def initTableFilters : TableFilters :=
  { service := "", level := "", anomaly_threshold := 1 / 2, search := "" }

/-- A single filter-input change `(name, value)` as fired by the inputs of
`LogTable` (lines 53-87). -/
inductive FilterUpdate where
  | service (v : String)
  | level (v : String)
  | anomaly_threshold (v : ℚ)
  | search (v : String)
  deriving Repr, DecidableEq

/-- The merge `{ ...filters, [name]: value }` of `LogTable.handleFilterChange`
(line 23): the named field is replaced, every other field keeps its value. -/
def updateFilters (f : TableFilters) : FilterUpdate → TableFilters
  | FilterUpdate.service v => { f with service := v }
  | FilterUpdate.level v => { f with level := v }
  | FilterUpdate.anomaly_threshold v => { f with anomaly_threshold := v }
  | FilterUpdate.search v => { f with search := v }

/-- The request `getLogs({ page: pageNum, ...filtersObj })` built by
`fetchLogs` (lines 35-38 of `App.jsx`). -/
structure FetchRequest where
  page : Nat
  service : String
  level : String
  anomaly_threshold : ℚ
  search : String
  deriving Repr, DecidableEq

/-- Spread the page number and the filter record into one request. -/
def mkLogsRequest (pageNum : Nat) (f : TableFilters) : FetchRequest :=
  { page := pageNum, service := f.service, level := f.level,
    anomaly_threshold := f.anomaly_threshold, search := f.search }

/-- The `getLogs` response: `logs`, `total` and `pages` may each be absent
(the code falls back with `||`). -/
structure LogsResponse where
  logs : Option (List Json)
  total : Option Nat
  pages : Option Nat

/-- The `App` component state (lines 12-19). -/
structure AppState where
  analytics : Json
  logs : List Json
  total : Nat
  page : Nat
  pages : Nat
  filters : Option TableFilters
  health : Bool

/-- Applying the settled `fetchLogs` call (lines 33-46): a resolved response
sets `logs`, `total`, `page` and `pages` (with `|| []`, `|| 0`, `|| 1`
fallbacks); a rejected one reaches the `catch`, which only logs. -/
def fetchLogsApply (s : AppState) (pageNum : Nat) (res : Except Unit LogsResponse) : AppState :=
  match res with
  | Except.ok r =>
    { s with logs := r.logs.getD [], total := r.total.getD 0,
             page := pageNum, pages := r.pages.getD 1 }
  | Except.error _ => s

/-- C10: a failed log-list fetch leaves the coordinator state entirely
unchanged — logs, total, displayed page and page count all keep their
previous values (the `catch` only logs the error). -/
theorem fetchLogs_error_atomic (s : AppState) (pageNum : Nat) :
    fetchLogsApply s pageNum (Except.error ()) = s ∧
    (fetchLogsApply s pageNum (Except.error ())).logs = s.logs ∧
    (fetchLogsApply s pageNum (Except.error ())).total = s.total ∧
    (fetchLogsApply s pageNum (Except.error ())).page = s.page ∧
    (fetchLogsApply s pageNum (Except.error ())).pages = s.pages :=
  ⟨rfl, rfl, rfl, rfl, rfl⟩

/-- The outcome of a filter change: the resulting `App` state, `LogTable`'s
stored filter record, and the `getLogs` requests issued. -/
structure FilterOutcome where
  app : AppState
  table : TableFilters
  requests : List FetchRequest

/-- One filter change end to end: `LogTable.handleFilterChange` (lines
22-26) merges the changed field and reports the merged record exactly once
to `App.handleFilterChange` (lines 84-87), which stores it and calls
`fetchLogs(1, newFilters)` — one request carrying page 1 with all merged
fields, whose settlement is applied by `fetchLogsApply`. -/
def applyFilter (s : AppState) (tf : TableFilters) (u : FilterUpdate)
    (res : Except Unit LogsResponse) : FilterOutcome :=
  let nf := updateFilters tf u
  { app := fetchLogsApply { s with filters := some nf } 1 res,
    table := nf,
    requests := [mkLogsRequest 1 nf] }

/-- An `App` state currently displaying page 3 of 5. -/
def pageThreeApp : AppState :=
  { analytics := Json.jnull, logs := [], total := 40, page := 3, pages := 5,
    filters := some initTableFilters, health := true }

/-- C4 counterexample: `applyFilter` does not always reset the displayed
page to 1 — when the single fetch it issues fails, `setPage(1)` (inside
`fetchLogs`'s `try`) never runs and the displayed page stays 3. -/
theorem applyFilter_page_counterexample :
    (applyFilter pageThreeApp initTableFilters (FilterUpdate.service "payment-svc")
        (Except.error ())).app.page ≠ 1 := by
  decide

/-- C4 amended: a filter change issues exactly one fetch, whose request
carries page 1 together with the changed field merged with every previously
set field; the merged record is stored, and the displayed page becomes 1
whenever that fetch succeeds.  In particular changing service then level on
the initial filters yields the full record
`service = "payment-svc", level = "ERROR", anomaly_threshold = 0.5`. -/
theorem applyFilter_single_merged_fetch
    (s : AppState) (tf : TableFilters) (u : FilterUpdate)
    (res : Except Unit LogsResponse) :
    (applyFilter s tf u res).requests = [mkLogsRequest 1 (updateFilters tf u)] ∧
    (applyFilter s tf u res).requests.length = 1 ∧
    (applyFilter s tf u res).table = updateFilters tf u ∧
    (applyFilter s tf u res).app.filters = some (updateFilters tf u) ∧
    (∀ r, res = Except.ok r → (applyFilter s tf u res).app.page = 1) ∧
    updateFilters (updateFilters initTableFilters (FilterUpdate.service "payment-svc"))
        (FilterUpdate.level "ERROR") =
      { service := "payment-svc", level := "ERROR",
        anomaly_threshold := 1 / 2, search := "" } := by
  refine ⟨rfl, rfl, rfl, ?_, ?_, rfl⟩
  · cases res with
    | ok r => rfl
    | error e => rfl
  · intro r h
    subst h
    rfl

/-- Witness for C4 (amended): on a successful fetch the displayed page is 1. -/
theorem applyFilter_single_merged_fetch_witness :
    (applyFilter pageThreeApp initTableFilters (FilterUpdate.service "payment-svc")
        (Except.ok ⟨some [], some 0, some 1⟩)).app.page = 1 :=
  (applyFilter_single_merged_fetch pageThreeApp initTableFilters
      (FilterUpdate.service "payment-svc") (Except.ok ⟨some [], some 0, some 1⟩)).2.2.2.2.1
    ⟨some [], some 0, some 1⟩ rfl

/-! ### Background analytics/health refresh -/

/-- `fetchAnalytics` settled (lines 23-30): a resolved response replaces
`analytics`; a rejected one only logs. -/
def fetchAnalyticsApply (s : AppState) (res : Except Unit Json) : AppState :=
  match res with
  | Except.ok d => { s with analytics := d }
  | Except.error _ => s

/-- `checkHealth` settled (lines 49-56): `health` becomes the response's
liveness flag, or `false` on a transport failure. -/
def checkHealthApply (s : AppState) (res : Except Unit Bool) : AppState :=
  match res with
  | Except.ok b => { s with health := b }
  | Except.error _ => { s with health := false }

/-- One tick of the 30-second refresh interval (lines 65-68): re-fetch
analytics and the liveness flag. -/
def analyticsTick (s : AppState) (ares : Except Unit Json) (hres : Except Unit Bool) : AppState :=
  checkHealthApply (fetchAnalyticsApply s ares) hres

/-- Number of times the dependencies differ from render to render. -/
def depChanges {D : Type} [DecidableEq D] (prev : D) : List D → Nat
  | [] => 0
  | d :: rest => (if d = prev then 0 else 1) + depChanges d rest

/-- React effect discipline: over a list of per-render dependency
snapshots, the effect body runs on the first render and again whenever the
snapshot differs from the previous one; each run's cleanup executes exactly
once (on the next run or at unmount), so teardown count equals run count.
The refresh effect of `App.jsx` (lines 59-75) has the empty dependency
array, modelled as `Unit` snapshots. -/
def effectRuns {D : Type} [DecidableEq D] : List D → Nat
  | [] => 0
  | d :: rest => 1 + depChanges d rest

lemma depChanges_replicate_unit (n : Nat) : depChanges () (List.replicate n ()) = 0 := by
  induction n with
  | zero => rfl
  | succ k ih => simpa [List.replicate_succ, depChanges] using ih

/-- C9: across any number of renders the empty-dependency refresh effect
runs exactly once (one interval armed, hence exactly one teardown of it on
unmount), and each tick rewrites only `analytics` and `health`: filters,
displayed page, logs, total and page count are untouched. -/
theorem analytics_timer_once_and_frame
    (n : Nat) (s : AppState) (ares : Except Unit Json) (hres : Except Unit Bool) :
    effectRuns (List.replicate (n + 1) ()) = 1 ∧
    (analyticsTick s ares hres).filters = s.filters ∧
    (analyticsTick s ares hres).page = s.page ∧
    (analyticsTick s ares hres).logs = s.logs ∧
    (analyticsTick s ares hres).total = s.total ∧
    (analyticsTick s ares hres).pages = s.pages := by
  refine ⟨?_, ?_, ?_, ?_, ?_, ?_⟩
  · simp [List.replicate_succ, effectRuns, depChanges_replicate_unit]
  all_goals cases ares <;> cases hres <;> rfl

end LogPlatform
